import Mathlib

/-!
Verification development for the pension_calculator repository.

The source under scrutiny is `src/utils.py` (rate conversion) and
`src/calculations.py` (the two monthly scheme simulations and the
cross-scheme comparison analyzer).  Monetary amounts and rates are Python
floats; the simulations use only `+`, `*`, `-` and comparisons on them, so
they are embedded exactly over `ℚ`.  The rate converter
`get_monthly_rate` uses real exponentiation (`** (1/12)`), so it is
embedded over `ℝ` with `Real.rpow`.  Calendar dates are normalised by the
source to the first day of their month and stepped by whole months, so a
date is embedded as a month index `ℕ` (months since an arbitrary epoch).
-/

namespace PensionSpec

/-- `get_monthly_rate` from src/utils.py (lines 17-29).  The compounding
frequency value comes from `get_compounding_frequency_value` and is a
natural number (365, 12, 4, 1 or 0); the annual rate is a real.  The two
guard branches return 0; otherwise the effective annual rate
`(1 + annual_rate/frequency)^frequency - 1` is converted to a monthly
rate by `(1 + effective_annual)^(1/12) - 1` (a real 12th-root, `rpow`). -/
noncomputable def get_monthly_rate (annual_rate : ℝ) (compounding_frequency_value : ℕ) : ℝ :=
  if compounding_frequency_value = 0 then 0
  else if annual_rate = 0 then 0
  else
    let effective_annual_rate : ℝ :=
      (1 + annual_rate / (compounding_frequency_value : ℝ)) ^ compounding_frequency_value - 1
    (1 + effective_annual_rate) ^ ((1 : ℝ) / 12) - 1

/-! ## Scheme 1 ("Pension Scheme 58 Years Old", src/calculations.py lines 6-141)

The Python function receives annual rates and compounding frequencies and
converts them once, before the loop, with `get_monthly_rate`
(lines 45-46).  The loop body itself only ever sees the two resulting
monthly rates, so the embedding takes the monthly rates as parameters
(arbitrary rationals, covering every possible output of the converter);
everything else is transcribed one-for-one from the loop body. -/

/-- Parameter set of `calculate_scheme1_logic`, dates replaced by month
indices and the two rate/frequency pairs replaced by the monthly rates
computed from them before the loop. -/
structure S1Params where
  endMonth : ℕ                -- end_date (display end), normalised to a month
  initialLumpSum : ℚ          -- initial_lump_sum_val
  lumpSumMonth : ℕ            -- lump_sum_date_val (also the loop start month)
  monthlyContribution : ℚ     -- monthly_contribution_val
  contribEndMonth : ℕ         -- s1_contribution_to_provider_end_date_val
  s1PensionAmount : ℚ         -- s1_pension_amount
  s1PensionStartMonth : ℕ     -- s1_pension_start_date
  monthlyReinvestmentRate : ℚ -- get_monthly_rate(s1_reinvestment_rate, s1_reinvestment_compounding_frequency)
  monthlySipRate : ℚ          -- get_monthly_rate(s1_sip_fund_growth_rate, s1_sip_fund_compounding_frequency)
  s2PensionStartMonth : ℕ     -- s2_pension_start_date (the tax transition month, "turns 60")
  enableTax : Bool            -- enable_tax
  taxRate : ℚ                 -- tax_rate

/-- Mutable loop state of `calculate_scheme1_logic` (lines 25-35). -/
structure S1State where
  cumContrib : ℚ          -- cumulative_contributions_paid_to_provider
  pot : ℚ                 -- pension_reinvestment_pot_s1
  potInterestEarned : ℚ   -- pension_reinvestment_interest_earned_s1 (net)
  sipBalance : ℚ          -- sip_fund_balance_s1
  sipInterestEarned : ℚ   -- sip_fund_interest_earned_s1
  taxPensionTotal : ℚ     -- total_tax_paid_on_pension
  taxReinvTotal : ℚ       -- total_tax_paid_on_reinvestment_interest
deriving DecidableEq

/-- One emitted monthly record of scheme 1 (the dict appended at
lines 118-133 of src/calculations.py), field for field. -/
structure S1Record where
  date : ℕ
  contributionPaidThisMonth : ℚ
  cumulativeContributionsPaid : ℚ
  pensionGross : ℚ
  taxOnPension : ℚ
  pensionNet : ℚ
  monthlySipContribution : ℚ
  interestOnSipFund : ℚ
  sipFundBalance : ℚ
  interestOnReinvestmentGross : ℚ
  taxOnReinvestmentInterest : ℚ
  interestOnReinvestmentNet : ℚ
  pot : ℚ
  totalAccumulatedValue : ℚ
deriving DecidableEq

/-- Initial loop state (lines 25-35: every accumulator starts at 0.0). -/
def s1InitState : S1State :=
  { cumContrib := 0, pot := 0, potInterestEarned := 0, sipBalance := 0,
    sipInterestEarned := 0, taxPensionTotal := 0, taxReinvTotal := 0 }

/-- One iteration of the `while current_date <= end_date_dt` loop of
`calculate_scheme1_logic` (lines 48-135), at month `m`, in source order:
lump sum, contribution routing (provider / SIP side fund with untaxed
growth), pension payout with tax before the transition month, side-fund
merger at the transition month, then reinvestment growth on the pot with
tax before the transition month.  Where the Python updates an accumulator
only inside a branch whose added amount is 0 outside the branch, the
embedding adds the (then zero) amount unconditionally.  The record field
`interestOnReinvestmentGross` reproduces line 128: the Python variable
`interest_earned_on_reinvestment_gross` is initialised to 0.0 (line 54)
and never reassigned (the computed gross goes into the distinct local
`current_reinvestment_interest_gross`, line 103), so the reported value
is always 0. -/
def scheme1Step (p : S1Params) (st : S1State) (m : ℕ) : S1State × S1Record :=
  -- 1. lump sum payment (lines 61-63)
  let lumpPaid : ℚ := if m = p.lumpSumMonth then p.initialLumpSum else 0
  -- 2. monthly contribution routing (lines 66-78)
  let providerContrib : ℚ := if m ≤ p.contribEndMonth then p.monthlyContribution else 0
  let contributionPaid : ℚ := lumpPaid + providerContrib
  let cumContrib : ℚ := st.cumContrib + lumpPaid + providerContrib
  let sipAdded : ℚ :=
    if p.contribEndMonth < m ∧ m < p.s2PensionStartMonth then p.monthlyContribution else 0
  let sipAfterContrib : ℚ := st.sipBalance + sipAdded
  let sipInterest : ℚ :=
    if p.contribEndMonth < m ∧ m < p.s2PensionStartMonth then
      sipAfterContrib * p.monthlySipRate
    else 0
  let sipBalance1 : ℚ := sipAfterContrib + sipInterest
  let sipInterestEarned : ℚ := st.sipInterestEarned + sipInterest
  -- 3. pension payout (lines 81-92)
  let pensionGross : ℚ := if p.s1PensionStartMonth ≤ m then p.s1PensionAmount else 0
  let taxOnPension : ℚ :=
    if p.s1PensionStartMonth ≤ m ∧ p.enableTax = true ∧ m < p.s2PensionStartMonth then
      pensionGross * p.taxRate
    else 0
  let pensionNet : ℚ := pensionGross - taxOnPension
  let pot1 : ℚ := st.pot + pensionNet
  let taxPensionTotal : ℚ := st.taxPensionTotal + taxOnPension
  -- 4. SIP fund merger into the pot at the transition month (lines 95-97)
  let pot2 : ℚ := if m = p.s2PensionStartMonth then pot1 + sipBalance1 else pot1
  let sipBalance2 : ℚ := if m = p.s2PensionStartMonth then 0 else sipBalance1
  -- 5. reinvestment growth on the pot (lines 102-114)
  let reinvGross : ℚ := if 0 < pot2 then pot2 * p.monthlyReinvestmentRate else 0
  let taxOnReinv : ℚ :=
    if 0 < pot2 ∧ p.enableTax = true ∧ m < p.s2PensionStartMonth then
      reinvGross * p.taxRate
    else 0
  let reinvNet : ℚ := reinvGross - taxOnReinv
  let pot3 : ℚ := pot2 + reinvNet
  let potInterestEarned : ℚ := st.potInterestEarned + reinvNet
  let taxReinvTotal : ℚ := st.taxReinvTotal + taxOnReinv
  let total : ℚ := pot3 + sipBalance2
  ({ cumContrib := cumContrib, pot := pot3, potInterestEarned := potInterestEarned,
     sipBalance := sipBalance2, sipInterestEarned := sipInterestEarned,
     taxPensionTotal := taxPensionTotal, taxReinvTotal := taxReinvTotal },
   { date := m,
     contributionPaidThisMonth := contributionPaid,
     cumulativeContributionsPaid := cumContrib,
     pensionGross := pensionGross,
     taxOnPension := taxOnPension,
     pensionNet := pensionNet,
     monthlySipContribution := sipAdded,
     interestOnSipFund := sipInterest,
     sipFundBalance := sipBalance2,
     interestOnReinvestmentGross := 0,
     taxOnReinvestmentInterest := taxOnReinv,
     interestOnReinvestmentNet := reinvNet,
     pot := pot3,
     totalAccumulatedValue := total })

/-- State after `k` loop iterations (the loop starts at the lump-sum
month, line 37, and advances one month per iteration, line 135). -/
def s1StateAt (p : S1Params) : ℕ → S1State
  | 0 => s1InitState
  | k + 1 => (scheme1Step p (s1StateAt p k) (p.lumpSumMonth + k)).1

/-- Record emitted by iteration `k` (month `lumpSumMonth + k`). -/
def s1RecordAt (p : S1Params) (k : ℕ) : S1Record :=
  (scheme1Step p (s1StateAt p k) (p.lumpSumMonth + k)).2

/-- Number of loop iterations: months from `lumpSumMonth` to `endMonth`
inclusive (`while current_date <= end_date_dt`); 0 when the end month
precedes the start month. -/
def s1NumMonths (p : S1Params) : ℕ := p.endMonth + 1 - p.lumpSumMonth

/-- The emitted record sequence of `calculate_scheme1_logic`. -/
def calculate_scheme1_records (p : S1Params) : List S1Record :=
  (List.range (s1NumMonths p)).map (s1RecordAt p)

/-- Loop state after the final iteration. -/
def s1FinalState (p : S1Params) : S1State := s1StateAt p (s1NumMonths p)

/-- Full return value of `calculate_scheme1_logic` (line 141):
records, overall total interest earned (net reinvestment interest plus
SIP interest, line 138), final scheme value (last record total, or 0.0
when there are no records, line 139), total tax paid on pension and total
tax paid on reinvestment interest. -/
def calculate_scheme1_logic (p : S1Params) : List S1Record × ℚ × ℚ × ℚ × ℚ :=
  let records := calculate_scheme1_records p
  (records,
   (s1FinalState p).potInterestEarned + (s1FinalState p).sipInterestEarned,
   ((records.getLast?).map S1Record.totalAccumulatedValue).getD 0,
   (s1FinalState p).taxPensionTotal,
   (s1FinalState p).taxReinvTotal)

/-! ## Scheme 2 ("Pension Scheme 60 Years Old", src/calculations.py lines 143-213)

Same shape as scheme 1, with no SIP side fund and no tax: contributions
until the contribution end month, pension from the pension start month
straight into the reinvestment pot, untaxed growth on the pot. -/

/-- Parameter set of `calculate_scheme2_logic`, dates replaced by month
indices and the rate/frequency pair replaced by the monthly rate computed
from it before the loop (line 173). -/
structure S2Params where
  endMonth : ℕ                -- end_date
  initialLumpSum : ℚ          -- initial_lump_sum_val
  lumpSumMonth : ℕ            -- lump_sum_date_val (loop start month)
  monthlyContribution : ℚ     -- monthly_contribution_val
  contribEndMonth : ℕ         -- s2_contribution_to_provider_end_date_val
  s2PensionAmount : ℚ         -- s2_pension_amount
  s2PensionStartMonth : ℕ     -- s2_pension_start_date
  monthlyReinvestmentRate : ℚ -- get_monthly_rate(s2_reinvestment_rate, s2_reinvestment_compounding_frequency)

/-- Mutable loop state of `calculate_scheme2_logic` (lines 157-160). -/
structure S2State where
  cumContrib : ℚ          -- cumulative_contributions_paid_to_provider
  pot : ℚ                 -- pension_reinvestment_pot_s2
  potInterestEarned : ℚ   -- pension_reinvestment_interest_earned_s2
deriving DecidableEq

/-- One emitted monthly record of scheme 2 (the dict appended at
lines 202-210 of src/calculations.py). -/
structure S2Record where
  date : ℕ
  contributionPaidThisMonth : ℚ
  cumulativeContributionsPaid : ℚ
  pensionNet : ℚ
  interestOnReinvestmentNet : ℚ
  pot : ℚ
  totalAccumulatedValue : ℚ
deriving DecidableEq

/-- Initial loop state of scheme 2 (all accumulators 0.0). -/
def s2InitState : S2State := { cumContrib := 0, pot := 0, potInterestEarned := 0 }

/-- One iteration of the `while current_date <= end_date_dt` loop of
`calculate_scheme2_logic` (lines 175-211) at month `m`: lump sum,
monthly contribution to the provider, pension payout (untaxed) into the
pot, then growth on the pot when its balance is strictly positive.
The total accumulated value in the record is the pot itself (line 209). -/
def scheme2Step (p : S2Params) (st : S2State) (m : ℕ) : S2State × S2Record :=
  let lumpPaid : ℚ := if m = p.lumpSumMonth then p.initialLumpSum else 0
  let providerContrib : ℚ := if m ≤ p.contribEndMonth then p.monthlyContribution else 0
  let contributionPaid : ℚ := lumpPaid + providerContrib
  let cumContrib : ℚ := st.cumContrib + lumpPaid + providerContrib
  let pensionNet : ℚ := if p.s2PensionStartMonth ≤ m then p.s2PensionAmount else 0
  let pot1 : ℚ := st.pot + pensionNet
  let reinvNet : ℚ := if 0 < pot1 then pot1 * p.monthlyReinvestmentRate else 0
  let pot2 : ℚ := pot1 + reinvNet
  let potInterestEarned : ℚ := st.potInterestEarned + reinvNet
  ({ cumContrib := cumContrib, pot := pot2, potInterestEarned := potInterestEarned },
   { date := m,
     contributionPaidThisMonth := contributionPaid,
     cumulativeContributionsPaid := cumContrib,
     pensionNet := pensionNet,
     interestOnReinvestmentNet := reinvNet,
     pot := pot2,
     totalAccumulatedValue := pot2 })

/-- State after `k` iterations of the scheme-2 loop. -/
def s2StateAt (p : S2Params) : ℕ → S2State
  | 0 => s2InitState
  | k + 1 => (scheme2Step p (s2StateAt p k) (p.lumpSumMonth + k)).1

/-- Record emitted by iteration `k` of the scheme-2 loop. -/
def s2RecordAt (p : S2Params) (k : ℕ) : S2Record :=
  (scheme2Step p (s2StateAt p k) (p.lumpSumMonth + k)).2

/-- Number of scheme-2 loop iterations. -/
def s2NumMonths (p : S2Params) : ℕ := p.endMonth + 1 - p.lumpSumMonth

/-- The emitted record sequence of `calculate_scheme2_logic`. -/
def calculate_scheme2_records (p : S2Params) : List S2Record :=
  (List.range (s2NumMonths p)).map (s2RecordAt p)

/-- Loop state after the final scheme-2 iteration. -/
def s2FinalState (p : S2Params) : S2State := s2StateAt p (s2NumMonths p)

/-- Full return value of `calculate_scheme2_logic` (line 213): records,
net interest earned, final pot balance, and the two tax totals, which are
the constants 0.0 for scheme 2 (lines 163-164). -/
def calculate_scheme2_logic (p : S2Params) : List S2Record × ℚ × ℚ × ℚ × ℚ :=
  (calculate_scheme2_records p,
   (s2FinalState p).potInterestEarned,
   (s2FinalState p).pot,
   0,
   0)

/-! ## Comparison analyzer (`analyze_scheme_performance`, src/calculations.py lines 215-264)

The analyzer receives the two record lists and works on their
(`Date`, `Total Accumulated Value (User)`) projections, so the embedding
takes each series as a `List (ℕ × ℚ)` of (month, total value) pairs; the
record series produced by the simulations have pairwise-distinct dates.

Pandas behaviour embedded here:
* selecting the Date and Total Accumulated Value columns from
  `pd.DataFrame(records)` (lines 224-225) raises a `KeyError` when
  `records` is the empty list, because the frame then has no columns to
  select; the embedding returns `Except.error` in that case.
* the outer merge on Date (lines 228-230) is a database-style join: for
  each month of the union of the two date sets it emits one row per
  matching pair of records — the cross product when a month is repeated
  within a series — and a row with the other side missing (`fillna(0)`
  turns it into 0) for a month present on one side only.  The merge
  sorts its keys and the later sort on Date keeps them sorted; within
  one month the rows are modelled in the join's left-major pair order
  (for series with pairwise-distinct months, the only ones the
  simulators produce, each month yields exactly one row and the order
  question does not arise). -/

/-- The pandas exception raised by column selection on a DataFrame built
from an empty record list. -/
inductive PandasError where
  | keyError
deriving DecidableEq

/-- A directional overtake event (the strings appended at lines 246
and 249), carrying the month it is reported for. -/
inductive OvertakeEvent where
  | s1_overtakes_s2 (month : ℕ)   -- "Pension Scheme 58 ... overtakes ... 60 ... on <month>"
  | s2_overtakes_s1 (month : ℕ)   -- "Pension Scheme 60 ... overtakes ... 58 ... on <month>"
deriving DecidableEq

/-- The month an overtake event is reported for. -/
def OvertakeEvent.month : OvertakeEvent → ℕ
  | .s1_overtakes_s2 m => m
  | .s2_overtakes_s1 m => m

/-- Scheme names appearing in the final ranking strings (line 260). -/
inductive SchemeName where
  | scheme58
  | scheme60
deriving DecidableEq

/-- The values a series holds at a month, in series order: one entry per
record of the series whose Date equals that month.  An arbitrary series
may hold several records for the same month; a simulator-produced series
holds at most one. -/
def matchingRows (s : List (ℕ × ℚ)) (d : ℕ) : List ℚ :=
  (s.filter (fun r => r.1 = d)).map Prod.snd

/-- The sorted month axis of the merged frame: the union of the two date
sets, without duplicates, ascending (the outer merge sorts its keys and
the later sort on Date keeps them sorted, lines 228-230). -/
def mergedDates (s1 s2 : List (ℕ × ℚ)) : List ℕ :=
  List.insertionSort (fun a b => a ≤ b) (s1.map Prod.fst ++ s2.map Prod.fst).dedup

/-- The merged rows one month contributes, with the outer-join semantics
of `merge(df2, on='Date', how='outer')` followed by `fillna(0)`: a month
present on one side only yields one row per record on that side with the
missing value filled with 0; a month present on both sides yields one
row per matching pair (the cross product, left-major). -/
def joinRowsAt (s1 s2 : List (ℕ × ℚ)) (d : ℕ) : List (ℕ × ℚ × ℚ) :=
  match matchingRows s1 d, matchingRows s2 d with
  | [], rs => rs.map (fun v => (d, 0, v))
  | ls, [] => ls.map (fun v => (d, v, 0))
  | ls, rs => ls.flatMap (fun l => rs.map (fun r => (d, l, r)))

/-- Rows of the merged frame, in ascending month order:
(month, scheme-58 value, scheme-60 value). -/
def mergedRows (s1 s2 : List (ℕ × ℚ)) : List (ℕ × ℚ × ℚ) :=
  (mergedDates s1 s2).flatMap (joinRowsAt s1 s2)

/-- The overtake-detection walk (lines 237-252): scanning the merged rows
with the pair of values of the previous row (seeded with (0, 0), lines
237-238), a row emits "58 overtakes 60" when the 58-value is strictly
greater than the 60-value, the previous 58-value was less than or equal
to the previous 60-value, and the 58-value is strictly positive — and
symmetrically for "60 overtakes 58". -/
def overtakeWalk : List (ℕ × ℚ × ℚ) → ℚ → ℚ → List OvertakeEvent
  | [], _, _ => []
  | (d, v1, v2) :: rest, p1, p2 =>
      ((if v2 < v1 ∧ p1 ≤ p2 ∧ 0 < v1 then [OvertakeEvent.s1_overtakes_s2 d] else []) ++
       (if v1 < v2 ∧ p2 ≤ p1 ∧ 0 < v2 then [OvertakeEvent.s2_overtakes_s1 d] else [])) ++
      overtakeWalk rest v1 v2

/-- `analyze_scheme_performance` (lines 215-264).  Building either
DataFrame from an empty record list raises a `KeyError` at the column
selection (lines 224-225), modelled as `Except.error`; the unreachable
`combined_df.empty` guard (lines 234-235) is kept for faithfulness.  The
final ranking sorts the two (name, final value) pairs by value descending
(line 259); the Python sort is stable, so scheme 58 — first in the dict —
comes first on a tie. -/
def analyze_scheme_performance (s1_records s2_records : List (ℕ × ℚ)) :
    Except PandasError (List OvertakeEvent × List (SchemeName × ℚ)) :=
  if s1_records.isEmpty ∨ s2_records.isEmpty then
    Except.error PandasError.keyError
  else
    let rows := mergedRows s1_records s2_records
    if rows.isEmpty then Except.ok ([], [])
    else
      let overtakes := overtakeWalk rows 0 0
      let lastRow := (rows.getLast?).getD (0, 0, 0)
      let v1 := lastRow.2.1
      let v2 := lastRow.2.2
      let ranking :=
        if v1 < v2 then
          [(SchemeName.scheme60, v2), (SchemeName.scheme58, v1)]
        else
          [(SchemeName.scheme58, v1), (SchemeName.scheme60, v2)]
      Except.ok (overtakes, ranking)

/-! ## Concrete parameter sets and series used to evaluate the model -/

/-- A small scheme-1 run: two months starting at month 0, no
contributions, pension 100 per month from month 0, reinvestment monthly
rate 1/10, SIP phase never reached (transition month far away), tax
disabled. -/
def exampleS1Params : S1Params :=
  { endMonth := 1, initialLumpSum := 0, lumpSumMonth := 0, monthlyContribution := 0,
    contribEndMonth := 0, s1PensionAmount := 100, s1PensionStartMonth := 0,
    monthlyReinvestmentRate := 1/10, monthlySipRate := 0,
    s2PensionStartMonth := 100, enableTax := false, taxRate := 0 }

/-- A small scheme-2 run: two months starting at month 0, pension 100
per month from month 0, reinvestment monthly rate 1/10. -/
def exampleS2Params : S2Params :=
  { endMonth := 1, initialLumpSum := 0, lumpSumMonth := 0, monthlyContribution := 0,
    contribEndMonth := 0, s2PensionAmount := 100, s2PensionStartMonth := 0,
    monthlyReinvestmentRate := 1/10 }

/-- A scheme-1 run with tax enabled at 30%: pension 10000 per month from
month 0, transition month 3, six months simulated, no growth. -/
def exampleS1TaxParams : S1Params :=
  { endMonth := 5, initialLumpSum := 0, lumpSumMonth := 0, monthlyContribution := 0,
    contribEndMonth := 0, s1PensionAmount := 10000, s1PensionStartMonth := 0,
    monthlyReinvestmentRate := 0, monthlySipRate := 0,
    s2PensionStartMonth := 3, enableTax := true, taxRate := 3/10 }

/-- A degenerate scheme-1 parameter set: the display end month (0)
precedes the lump-sum month (5). -/
def degenerateS1Params : S1Params :=
  { endMonth := 0, initialLumpSum := 5, lumpSumMonth := 5, monthlyContribution := 7,
    contribEndMonth := 9, s1PensionAmount := 11, s1PensionStartMonth := 6,
    monthlyReinvestmentRate := 1/10, monthlySipRate := 1/20,
    s2PensionStartMonth := 8, enableTax := true, taxRate := 3/10 }

/-- A degenerate scheme-2 parameter set: the display end month (0)
precedes the lump-sum month (5). -/
def degenerateS2Params : S2Params :=
  { endMonth := 0, initialLumpSum := 5, lumpSumMonth := 5, monthlyContribution := 7,
    contribEndMonth := 9, s2PensionAmount := 11, s2PensionStartMonth := 6,
    monthlyReinvestmentRate := 1/10 }

/-- Series A of the comparison scenario in the spec: total values
0, 50, 150 at months 0, 1, 2 (the scheme-58 series). -/
def seriesA : List (ℕ × ℚ) := [(0, 0), (1, 50), (2, 150)]

/-- Series B of the comparison scenario in the spec: total values
0, 100, 100 at months 0, 1, 2 (the scheme-60 series). -/
def seriesB : List (ℕ × ℚ) := [(0, 0), (1, 100), (2, 100)]

/-- A scheme-58 series holding two records for the same month 5 (values
5 then 1): a shape no simulator output has, but one the analyzer
accepts, on which the outer merge emits one row per matching pair. -/
def seriesDupA : List (ℕ × ℚ) := [(5, 5), (5, 1)]

/-- A scheme-60 series with the single record (month 5, value 3). -/
def seriesDupB : List (ℕ × ℚ) := [(5, 3)]

/-- Decidable equality of `Except` results, by cases on the two
constructors. -/
instance {ε α : Type} [DecidableEq ε] [DecidableEq α] : DecidableEq (Except ε α) := fun a b =>
  match a, b with
  | .error e, .error f =>
      if h : e = f then isTrue (by rw [h]) else isFalse (by intro hh; cases hh; exact h rfl)
  | .error _, .ok _ => isFalse (by intro hh; cases hh)
  | .ok _, .error _ => isFalse (by intro hh; cases hh)
  | .ok x, .ok y =>
      if h : x = y then isTrue (by rw [h]) else isFalse (by intro hh; cases hh; exact h rfl)

/-! ## Theorems -/

/-- Claim C1 (the code diverges from it): for every pair of input record
series in which at least one series is empty, `analyze_scheme_performance`
does NOT return normally — building a DataFrame from the empty record
list and selecting its columns raises a `KeyError` before the
no-data guard of the function is ever reached. -/
theorem C1_empty_series_raises (s1 s2 : List (ℕ × ℚ)) (h : s1 = [] ∨ s2 = []) :
    analyze_scheme_performance s1 s2 = Except.error PandasError.keyError := by
  unfold analyze_scheme_performance
  rcases h with h | h <;> subst h <;> simp

/-- Witness for C1: both series empty. -/
theorem C1_empty_series_raises_witness :
    analyze_scheme_performance [] [] = Except.error PandasError.keyError :=
  C1_empty_series_raises [] [] (Or.inl rfl)

/-- Claim C2 (counterexample): on series A = [0, 50, 150] and
B = [0, 100, 100] at months 0, 1, 2, the analyzer does not return the
single event "A overtakes B at month 2" together with the ranking
[A (150), B (100)]: its event list has two entries, not one. -/
theorem C2_counterexample :
    analyze_scheme_performance seriesA seriesB ≠
      Except.ok ([OvertakeEvent.s1_overtakes_s2 2],
        [(SchemeName.scheme58, 150), (SchemeName.scheme60, 100)]) := by
  decide

/-- Claim C2 (amended): on series A = [0, 50, 150] and B = [0, 100, 100]
at months 0, 1, 2, the analyzer emits exactly two overtake events —
"B overtakes A" at month 1 (B pulls ahead from the month-0 tie) and
"A overtakes B" at month 2 — and the final ranking lists A first with
value 150 and B second with value 100. -/
theorem C2_amended_two_overtakes :
    analyze_scheme_performance seriesA seriesB =
      Except.ok ([OvertakeEvent.s2_overtakes_s1 1, OvertakeEvent.s1_overtakes_s2 2],
        [(SchemeName.scheme58, 150), (SchemeName.scheme60, 100)]) := by
  decide

/-- Claim C3 (the code diverges from it): in the `exampleS1Params` run,
month 0 has reinvestment-pot balance 100 after inflows (strictly
positive) and monthly reinvestment rate 1/10, so the gross interest
computed for the month is 10 — the pot indeed grows to 110 and the net
interest field reports 10 with tax 0 — yet the emitted record reports 0
in the gross reinvestment-interest field, because the Python variable
feeding that field is initialised to 0.0 and never reassigned. -/
theorem C3_gross_interest_field_zero :
    (s1RecordAt exampleS1Params 0).interestOnReinvestmentGross = 0 ∧
    (s1RecordAt exampleS1Params 0).interestOnReinvestmentNet = 10 ∧
    (s1RecordAt exampleS1Params 0).taxOnReinvestmentInterest = 0 ∧
    (s1RecordAt exampleS1Params 0).pot = 110 := by
  norm_num [s1RecordAt, s1StateAt, scheme1Step, s1InitState, exampleS1Params]

/-- Claim C7: a simulation whose display end month strictly precedes the
lump-sum (start) month returns normally with an empty record sequence,
zero total interest, zero final value and zero tax totals, for both
variants. -/
theorem C7_degenerate_range_returns_empty (p : S1Params) (q : S2Params)
    (hp : p.endMonth < p.lumpSumMonth) (hq : q.endMonth < q.lumpSumMonth) :
    calculate_scheme1_logic p = ([], 0, 0, 0, 0) ∧
    calculate_scheme2_logic q = ([], 0, 0, 0, 0) := by
  have hp0 : s1NumMonths p = 0 := by unfold s1NumMonths; omega
  have hq0 : s2NumMonths q = 0 := by unfold s2NumMonths; omega
  constructor
  · simp [calculate_scheme1_logic, calculate_scheme1_records, s1FinalState, hp0,
      s1StateAt, s1InitState]
  · simp [calculate_scheme2_logic, calculate_scheme2_records, s2FinalState, hq0,
      s2StateAt, s2InitState]

/-- Witness for C7 at the degenerate parameter sets. -/
theorem C7_degenerate_range_returns_empty_witness :
    calculate_scheme1_logic degenerateS1Params = ([], 0, 0, 0, 0) ∧
    calculate_scheme2_logic degenerateS2Params = ([], 0, 0, 0, 0) :=
  C7_degenerate_range_returns_empty degenerateS1Params degenerateS2Params
    (by decide) (by decide)

/-- Claim C8: the rate converter returns exactly 0 whenever the annual
rate is 0 (for every frequency) or the compounding frequency value is 0
(for every annual rate), the latter guarding the division by zero. -/
theorem C8_monthly_rate_zero_guards (r : ℝ) (f : ℕ) :
    get_monthly_rate 0 f = 0 ∧ get_monthly_rate r 0 = 0 := by
  refine ⟨?_, ?_⟩ <;> simp [get_monthly_rate]

/-- The record of iteration `k` carries month `lumpSumMonth + k`. -/
theorem s1RecordAt_date (p : S1Params) (k : ℕ) :
    (s1RecordAt p k).date = p.lumpSumMonth + k := rfl

/-- The scheme-2 record of iteration `k` carries month `lumpSumMonth + k`. -/
theorem s2RecordAt_date (q : S2Params) (k : ℕ) :
    (s2RecordAt q k).date = q.lumpSumMonth + k := rfl

/-- The scheme-1 date column is the month range starting at the lump-sum
month. -/
theorem calculate_scheme1_records_map_date (p : S1Params) :
    (calculate_scheme1_records p).map S1Record.date =
      (List.range (s1NumMonths p)).map (fun k => p.lumpSumMonth + k) := by
  simp only [calculate_scheme1_records, List.map_map]
  rfl

/-- The scheme-2 date column is the month range starting at the lump-sum
month. -/
theorem calculate_scheme2_records_map_date (q : S2Params) :
    (calculate_scheme2_records q).map S2Record.date =
      (List.range (s2NumMonths q)).map (fun k => q.lumpSumMonth + k) := by
  simp only [calculate_scheme2_records, List.map_map]
  rfl

/-- Claim C6: for either variant, when the lump-sum month does not exceed
the display end month, the emitted records cover exactly the months from
the lump-sum month through the display end month inclusive, in strictly
ascending order (hence exactly one record per month, no gaps, no skips). -/
theorem C6_month_coverage (p : S1Params) (q : S2Params)
    (hp : p.lumpSumMonth ≤ p.endMonth) (hq : q.lumpSumMonth ≤ q.endMonth) :
    (((calculate_scheme1_records p).map S1Record.date).Pairwise (· < ·) ∧
      ∀ m : ℕ, m ∈ (calculate_scheme1_records p).map S1Record.date ↔
        p.lumpSumMonth ≤ m ∧ m ≤ p.endMonth) ∧
    (((calculate_scheme2_records q).map S2Record.date).Pairwise (· < ·) ∧
      ∀ m : ℕ, m ∈ (calculate_scheme2_records q).map S2Record.date ↔
        q.lumpSumMonth ≤ m ∧ m ≤ q.endMonth) := by
  constructor
  · rw [calculate_scheme1_records_map_date]
    constructor
    · rw [List.pairwise_map]
      exact (List.sorted_lt_range _).imp (by omega)
    · intro m
      simp only [List.mem_map, List.mem_range, s1NumMonths]
      constructor
      · rintro ⟨k, hk, rfl⟩; omega
      · rintro ⟨h1, h2⟩; exact ⟨m - p.lumpSumMonth, by omega, by omega⟩
  · rw [calculate_scheme2_records_map_date]
    constructor
    · rw [List.pairwise_map]
      exact (List.sorted_lt_range _).imp (by omega)
    · intro m
      simp only [List.mem_map, List.mem_range, s2NumMonths]
      constructor
      · rintro ⟨k, hk, rfl⟩; omega
      · rintro ⟨h1, h2⟩; exact ⟨m - q.lumpSumMonth, by omega, by omega⟩

/-- Witness for C6 at the example parameter sets (months 0 and 1). -/
theorem C6_month_coverage_witness :
    (((calculate_scheme1_records exampleS1Params).map S1Record.date).Pairwise (· < ·) ∧
      ∀ m : ℕ, m ∈ (calculate_scheme1_records exampleS1Params).map S1Record.date ↔
        exampleS1Params.lumpSumMonth ≤ m ∧ m ≤ exampleS1Params.endMonth) ∧
    (((calculate_scheme2_records exampleS2Params).map S2Record.date).Pairwise (· < ·) ∧
      ∀ m : ℕ, m ∈ (calculate_scheme2_records exampleS2Params).map S2Record.date ↔
        exampleS2Params.lumpSumMonth ≤ m ∧ m ≤ exampleS2Params.endMonth) :=
  C6_month_coverage exampleS1Params exampleS2Params (by decide) (by decide)

/-- Claim C5: in a variant-A run with tax enabled and a tax rate in
[0, 1], a month at or after the pension start and strictly before the
transition month shows gross pension, tax withheld equal to the tax rate
times the gross, net pension equal to gross minus tax, and the running
pension-tax total growing by exactly that tax; a month at or after both
the pension start and the transition month shows zero tax and net equal
to gross, even though the tax flag remains set. -/
theorem C5_pension_tax_withholding (p : S1Params) (hT : p.enableTax = true)
    (h0 : 0 ≤ p.taxRate) (h1 : p.taxRate ≤ 1) (k : ℕ)
    (hrun : p.lumpSumMonth + k ≤ p.endMonth) :
    (p.s1PensionStartMonth ≤ p.lumpSumMonth + k → p.lumpSumMonth + k < p.s2PensionStartMonth →
      (s1RecordAt p k).pensionGross = p.s1PensionAmount ∧
      (s1RecordAt p k).taxOnPension = p.taxRate * p.s1PensionAmount ∧
      (s1RecordAt p k).pensionNet = p.s1PensionAmount - p.taxRate * p.s1PensionAmount ∧
      (s1StateAt p (k+1)).taxPensionTotal =
        (s1StateAt p k).taxPensionTotal + p.taxRate * p.s1PensionAmount) ∧
    (p.s1PensionStartMonth ≤ p.lumpSumMonth + k → p.s2PensionStartMonth ≤ p.lumpSumMonth + k →
      (s1RecordAt p k).pensionGross = p.s1PensionAmount ∧
      (s1RecordAt p k).taxOnPension = 0 ∧
      (s1RecordAt p k).pensionNet = p.s1PensionAmount) := by
  constructor
  · intro hps hlt
    have hcond : p.s1PensionStartMonth ≤ p.lumpSumMonth + k ∧ p.enableTax = true ∧
        p.lumpSumMonth + k < p.s2PensionStartMonth := ⟨hps, hT, hlt⟩
    simp only [s1RecordAt, s1StateAt, scheme1Step, if_pos hps, if_pos hcond]
    refine ⟨?_, ?_, ?_, ?_⟩ <;> first | trivial | ring
  · intro hps hge
    have hncond : ¬ (p.s1PensionStartMonth ≤ p.lumpSumMonth + k ∧ p.enableTax = true ∧
        p.lumpSumMonth + k < p.s2PensionStartMonth) := by
      rintro ⟨-, -, hlt⟩; omega
    simp only [s1RecordAt, s1StateAt, scheme1Step, if_pos hps, if_neg hncond]
    refine ⟨?_, ?_, ?_⟩ <;> first | trivial | ring

/-- Witness for C5 at the 30%-tax example run, month 1 (before the
transition month 3). -/
theorem C5_pension_tax_withholding_witness :
    (s1RecordAt exampleS1TaxParams 1).pensionGross = exampleS1TaxParams.s1PensionAmount ∧
    (s1RecordAt exampleS1TaxParams 1).taxOnPension =
      exampleS1TaxParams.taxRate * exampleS1TaxParams.s1PensionAmount ∧
    (s1RecordAt exampleS1TaxParams 1).pensionNet =
      exampleS1TaxParams.s1PensionAmount -
        exampleS1TaxParams.taxRate * exampleS1TaxParams.s1PensionAmount ∧
    (s1StateAt exampleS1TaxParams 2).taxPensionTotal =
      (s1StateAt exampleS1TaxParams 1).taxPensionTotal +
        exampleS1TaxParams.taxRate * exampleS1TaxParams.s1PensionAmount :=
  (C5_pension_tax_withholding exampleS1TaxParams rfl (by norm_num [exampleS1TaxParams])
    (by norm_num [exampleS1TaxParams]) 1 (by norm_num [exampleS1TaxParams])).1
    (by norm_num [exampleS1TaxParams]) (by norm_num [exampleS1TaxParams])

/-- The total accumulated value reported by record `k` equals the pot
plus side-fund balance of the state after iteration `k`. -/
theorem s1_record_total_eq (p : S1Params) (k : ℕ) :
    (s1RecordAt p k).totalAccumulatedValue =
      (s1StateAt p (k+1)).pot + (s1StateAt p (k+1)).sipBalance := rfl

/-- The total accumulated value reported by scheme-2 record `k` equals
the pot of the state after iteration `k`. -/
theorem s2_record_total_eq (q : S2Params) (k : ℕ) :
    (s2RecordAt q k).totalAccumulatedValue = (s2StateAt q (k+1)).pot := rfl

/-- One scheme-1 step keeps the side-fund balance nonnegative when the
monthly contribution and the SIP monthly rate are nonnegative. -/
theorem scheme1Step_sipBalance_nonneg (p : S1Params) (st : S1State) (m : ℕ)
    (hsip : 0 ≤ st.sipBalance) (hmc : 0 ≤ p.monthlyContribution)
    (hsr : 0 ≤ p.monthlySipRate) :
    0 ≤ ((scheme1Step p st m).1).sipBalance := by
  simp only [scheme1Step]
  split_ifs <;>
    nlinarith [mul_nonneg (add_nonneg hsip hmc) hsr, mul_nonneg hsip hsr]

/-- The side-fund balance is nonnegative throughout a scheme-1 run with
nonnegative monthly contribution and SIP rate. -/
theorem s1StateAt_sipBalance_nonneg (p : S1Params)
    (hmc : 0 ≤ p.monthlyContribution) (hsr : 0 ≤ p.monthlySipRate) :
    ∀ k : ℕ, 0 ≤ (s1StateAt p k).sipBalance
  | 0 => le_refl 0
  | k + 1 =>
      scheme1Step_sipBalance_nonneg p (s1StateAt p k) (p.lumpSumMonth + k)
        (s1StateAt_sipBalance_nonneg p hmc hsr k) hmc hsr

/-- With tax disabled and nonnegative flows and rates, one scheme-1 step
never decreases pot + side fund: the lump sum and provider contribution
never touch them, the SIP contribution and both interests only add, and
the merger moves the side fund into the pot unchanged. -/
theorem scheme1Step_total_mono (p : S1Params) (st : S1State) (m : ℕ)
    (hTax : p.enableTax = false)
    (hsip : 0 ≤ st.sipBalance) (hmc : 0 ≤ p.monthlyContribution)
    (hpen : 0 ≤ p.s1PensionAmount) (hrr : 0 ≤ p.monthlyReinvestmentRate)
    (hsr : 0 ≤ p.monthlySipRate) :
    st.pot + st.sipBalance ≤
      ((scheme1Step p st m).1).pot + ((scheme1Step p st m).1).sipBalance := by
  simp [scheme1Step, hTax]
  split_ifs <;>
    nlinarith [mul_nonneg (add_nonneg hsip hmc) hsr, mul_nonneg hsip hsr]

/-- One scheme-2 step never decreases the pot when the pension amount and
the reinvestment rate are nonnegative. -/
theorem scheme2Step_pot_mono (q : S2Params) (st : S2State) (m : ℕ)
    (hpen : 0 ≤ q.s2PensionAmount) (hrr : 0 ≤ q.monthlyReinvestmentRate) :
    st.pot ≤ ((scheme2Step q st m).1).pot := by
  simp only [scheme2Step]
  split_ifs <;> nlinarith

/-- Indexing into the scheme-1 record sequence yields the record of that
iteration. -/
theorem calculate_scheme1_records_get (p : S1Params) (k : ℕ)
    (h : k < (calculate_scheme1_records p).length) :
    (calculate_scheme1_records p).get ⟨k, h⟩ = s1RecordAt p k := by
  simp [calculate_scheme1_records]

/-- Indexing into the scheme-2 record sequence yields the record of that
iteration. -/
theorem calculate_scheme2_records_get (q : S2Params) (k : ℕ)
    (h : k < (calculate_scheme2_records q).length) :
    (calculate_scheme2_records q).get ⟨k, h⟩ = s2RecordAt q k := by
  simp [calculate_scheme2_records]

/-- Claim C4: for either variant with tax disabled and the documented
input domain (nonnegative contribution, pension and monthly rates — the
UI constrains all of them with a zero lower bound), every pair of
consecutive emitted records has a non-decreasing Total Accumulated
Value. -/
theorem C4_total_monotone (p : S1Params) (q : S2Params) (hTax : p.enableTax = false)
    (hmc : 0 ≤ p.monthlyContribution) (hpen : 0 ≤ p.s1PensionAmount)
    (hrr : 0 ≤ p.monthlyReinvestmentRate) (hsr : 0 ≤ p.monthlySipRate)
    (hqpen : 0 ≤ q.s2PensionAmount) (hqrr : 0 ≤ q.monthlyReinvestmentRate)
    (k l : ℕ) (hk : k + 1 < (calculate_scheme1_records p).length)
    (hl : l + 1 < (calculate_scheme2_records q).length) :
    ((calculate_scheme1_records p).get ⟨k, Nat.lt_of_succ_lt hk⟩).totalAccumulatedValue ≤
      ((calculate_scheme1_records p).get ⟨k+1, hk⟩).totalAccumulatedValue ∧
    ((calculate_scheme2_records q).get ⟨l, Nat.lt_of_succ_lt hl⟩).totalAccumulatedValue ≤
      ((calculate_scheme2_records q).get ⟨l+1, hl⟩).totalAccumulatedValue := by
  rw [calculate_scheme1_records_get, calculate_scheme1_records_get,
      calculate_scheme2_records_get, calculate_scheme2_records_get]
  constructor
  · rw [s1_record_total_eq, s1_record_total_eq]
    exact scheme1Step_total_mono p (s1StateAt p (k+1)) (p.lumpSumMonth + (k+1)) hTax
      (s1StateAt_sipBalance_nonneg p hmc hsr (k+1)) hmc hpen hrr hsr
  · rw [s2_record_total_eq, s2_record_total_eq]
    exact scheme2Step_pot_mono q (s2StateAt q (l+1)) (q.lumpSumMonth + (l+1)) hqpen hqrr

/-- Witness for C4 at the example runs, between months 0 and 1. -/
theorem C4_total_monotone_witness :
    ((calculate_scheme1_records exampleS1Params).get
        ⟨0, by decide⟩).totalAccumulatedValue ≤
      ((calculate_scheme1_records exampleS1Params).get
        ⟨1, by decide⟩).totalAccumulatedValue ∧
    ((calculate_scheme2_records exampleS2Params).get
        ⟨0, by decide⟩).totalAccumulatedValue ≤
      ((calculate_scheme2_records exampleS2Params).get
        ⟨1, by decide⟩).totalAccumulatedValue :=
  C4_total_monotone exampleS1Params exampleS2Params rfl
    (by norm_num [exampleS1Params]) (by norm_num [exampleS1Params])
    (by norm_num [exampleS1Params]) (by norm_num [exampleS1Params])
    (by norm_num [exampleS2Params]) (by norm_num [exampleS2Params])
    0 0 (by decide) (by decide)

/-- For a strictly positive frequency the converter agrees everywhere —
including at the annual-rate-0 guard branch, where both sides are 0 —
with the closed form (the f-th power of 1 + rate/frequency, raised to
the real power 1/12, minus 1). -/
theorem get_monthly_rate_eq (f : ℕ) (hf : 0 < f) (r : ℝ) :
    get_monthly_rate r f = ((1 + r / (f : ℝ)) ^ f) ^ ((1 : ℝ) / 12) - 1 := by
  unfold get_monthly_rate
  rw [if_neg (Nat.pos_iff_ne_zero.mp hf)]
  by_cases hr : r = 0
  · subst hr
    rw [if_pos rfl]
    norm_num
  · rw [if_neg hr]
    show (1 + ((1 + r / (f : ℝ)) ^ f - 1)) ^ ((1 : ℝ) / 12) - 1 = _
    have h : (1 : ℝ) + ((1 + r / (f : ℝ)) ^ f - 1) = (1 + r / (f : ℝ)) ^ f := by ring
    rw [h]

/-- Claim C9: for every fixed strictly positive compounding frequency
and all annual rates at least −1, the rate converter is strictly
monotonically increasing in the annual rate, across the annual-rate-0
guard branch included. -/
theorem C9_rate_monotone (f : ℕ) (hf : 0 < f) (r1 r2 : ℝ)
    (h1 : -1 ≤ r1) (h2 : -1 ≤ r2) (hlt : r1 < r2) :
    get_monthly_rate r1 f < get_monthly_rate r2 f := by
  rw [get_monthly_rate_eq f hf, get_monthly_rate_eq f hf]
  have hfR : (1 : ℝ) ≤ (f : ℝ) := by exact_mod_cast hf
  have hfpos : (0 : ℝ) < (f : ℝ) := by linarith
  have hbase1 : (0 : ℝ) ≤ 1 + r1 / (f : ℝ) := by
    have hd : -1 ≤ r1 / (f : ℝ) := by
      rw [le_div_iff₀ hfpos]
      nlinarith
    linarith
  have hbaselt : 1 + r1 / (f : ℝ) < 1 + r2 / (f : ℝ) := by
    have hd : r1 / (f : ℝ) < r2 / (f : ℝ) :=
      (div_lt_div_iff_of_pos_right hfpos).mpr hlt
    linarith
  have hpow : (1 + r1 / (f : ℝ)) ^ f < (1 + r2 / (f : ℝ)) ^ f :=
    pow_lt_pow_left₀ hbaselt hbase1 (Nat.pos_iff_ne_zero.mp hf)
  have hpownn : (0 : ℝ) ≤ (1 + r1 / (f : ℝ)) ^ f := pow_nonneg hbase1 f
  have hrpow : ((1 + r1 / (f : ℝ)) ^ f) ^ ((1 : ℝ) / 12) <
      ((1 + r2 / (f : ℝ)) ^ f) ^ ((1 : ℝ) / 12) :=
    Real.rpow_lt_rpow hpownn hpow (by norm_num)
  linarith

/-- Witness for C9: annual compounding, annual rates 0 and 1. -/
theorem C9_rate_monotone_witness : get_monthly_rate 0 1 < get_monthly_rate 1 1 :=
  C9_rate_monotone 1 (by norm_num) 0 1 (by norm_num) (by norm_num) (by norm_num)

/-- Every event the overtake walk emits carries the month of one of the
rows it walked over. -/
theorem overtakeWalk_month_mem (e : OvertakeEvent) :
    ∀ (rows : List (ℕ × ℚ × ℚ)) (p1 p2 : ℚ), e ∈ overtakeWalk rows p1 p2 →
      e.month ∈ rows.map Prod.fst := by
  intro rows
  induction rows with
  | nil => intro p1 p2 he; simp [overtakeWalk] at he
  | cons row rest ih =>
      obtain ⟨d, v1, v2⟩ := row
      intro p1 p2 he
      simp only [overtakeWalk, List.mem_append] at he
      simp only [List.map_cons, List.mem_cons]
      rcases he with (he | he) | he
      · split at he
        · simp at he; subst he; left; rfl
        · simp at he
      · split at he
        · simp at he; subst he; left; rfl
        · simp at he
      · right; exact ih v1 v2 he

/-- On rows with pairwise-distinct months, the overtake walk never emits
both directional events for the same month: within one row the two
emission conditions demand strictly greater current values in opposite
directions, and rows at different positions have different months. -/
theorem overtakeWalk_not_both (d : ℕ) :
    ∀ (rows : List (ℕ × ℚ × ℚ)) (p1 p2 : ℚ), (rows.map Prod.fst).Nodup →
      ¬ (OvertakeEvent.s1_overtakes_s2 d ∈ overtakeWalk rows p1 p2 ∧
         OvertakeEvent.s2_overtakes_s1 d ∈ overtakeWalk rows p1 p2) := by
  intro rows
  induction rows with
  | nil => intro p1 p2 _ h; simp [overtakeWalk] at h
  | cons row rest ih =>
      obtain ⟨d0, v1, v2⟩ := row
      rintro p1 p2 hnd ⟨h1, h2⟩
      simp only [List.map_cons, List.nodup_cons] at hnd
      obtain ⟨hd0, hndr⟩ := hnd
      simp only [overtakeWalk, List.mem_append] at h1 h2
      rcases h1 with (h1 | h1) | h1
      · split at h1
        case isTrue hc1 =>
          simp only [List.mem_singleton, OvertakeEvent.s1_overtakes_s2.injEq] at h1
          rcases h2 with (h2 | h2) | h2
          · split at h2 <;> simp at h2
          · split at h2
            case isTrue hc2 => exact absurd hc2.1 (not_lt.mpr (le_of_lt hc1.1))
            case isFalse => simp at h2
          · exact hd0 (h1 ▸ overtakeWalk_month_mem (OvertakeEvent.s2_overtakes_s1 d) rest v1 v2 h2)
        case isFalse => simp at h1
      · split at h1 <;> simp at h1
      · rcases h2 with (h2 | h2) | h2
        · split at h2 <;> simp at h2
        · split at h2
          case isTrue hc2 =>
            simp only [List.mem_singleton, OvertakeEvent.s2_overtakes_s1.injEq] at h2
            exact hd0 (h2 ▸ overtakeWalk_month_mem (OvertakeEvent.s1_overtakes_s2 d) rest v1 v2 h1)
          case isFalse => simp at h2
        · exact ih v1 v2 hndr ⟨h1, h2⟩

/-- The sorted month axis has no duplicate months. -/
theorem mergedDates_nodup (s1 s2 : List (ℕ × ℚ)) : (mergedDates s1 s2).Nodup :=
  ((List.perm_insertionSort _ _).nodup_iff).mpr (List.nodup_dedup _)

/-- A series whose months are pairwise distinct matches a month at most
once. -/
theorem matchingRows_length_le (s : List (ℕ × ℚ)) (d : ℕ)
    (h : (s.map Prod.fst).Nodup) : (matchingRows s d).length ≤ 1 := by
  induction s with
  | nil => simp [matchingRows]
  | cons a rest ih =>
      simp only [List.map_cons, List.nodup_cons] at h
      obtain ⟨ha, hrest⟩ := h
      by_cases hd : a.1 = d
      · have hnone : List.filter (fun r => decide (r.1 = d)) rest = [] := by
          rw [List.filter_eq_nil_iff]
          intro r hr
          simp only [decide_eq_true_eq]
          intro hrd
          apply ha
          rw [hd, ← hrd]
          exact List.mem_map_of_mem Prod.fst hr
        unfold matchingRows
        rw [List.filter_cons_of_pos (by simp [hd]), hnone]
        simp
      · unfold matchingRows
        rw [List.filter_cons_of_neg (by simp [hd])]
        exact ih hrest

/-- Every merged row produced for month `d` carries month `d`. -/
theorem joinRowsAt_month (s1 s2 : List (ℕ × ℚ)) (d : ℕ) (x : ℕ × ℚ × ℚ)
    (hx : x ∈ joinRowsAt s1 s2 d) : x.1 = d := by
  unfold joinRowsAt at hx
  split at hx
  · simp only [List.mem_map] at hx
    obtain ⟨v, -, rfl⟩ := hx
    rfl
  · simp only [List.mem_map] at hx
    obtain ⟨v, -, rfl⟩ := hx
    rfl
  · simp only [List.mem_flatMap, List.mem_map] at hx
    obtain ⟨l, -, r, -, rfl⟩ := hx
    rfl

/-- When both series have pairwise-distinct months, a month produces at
most one merged row. -/
theorem joinRowsAt_length_le (s1 s2 : List (ℕ × ℚ)) (d : ℕ)
    (h1 : (s1.map Prod.fst).Nodup) (h2 : (s2.map Prod.fst).Nodup) :
    (joinRowsAt s1 s2 d).length ≤ 1 := by
  have l1 := matchingRows_length_le s1 d h1
  have l2 := matchingRows_length_le s2 d h2
  rcases hA : matchingRows s1 d with _ | ⟨l, ls⟩ <;>
    rcases hB : matchingRows s2 d with _ | ⟨r, rs⟩ <;>
    rw [hA] at l1 <;> rw [hB] at l2 <;>
    simp only [joinRowsAt, hA, hB]
  · simp
  · simpa using l2
  · simpa using l1
  · rw [List.length_cons] at l1 l2
    have hls : ls = [] := List.length_eq_zero.mp (by omega)
    have hrs : rs = [] := List.length_eq_zero.mp (by omega)
    subst hls
    subst hrs
    simp

/-- With pairwise-distinct months on both sides, the month column one
month contributes is empty or the singleton of that month. -/
theorem joinRowsAt_months_eq (s1 s2 : List (ℕ × ℚ)) (d : ℕ)
    (h1 : (s1.map Prod.fst).Nodup) (h2 : (s2.map Prod.fst).Nodup) :
    (joinRowsAt s1 s2 d).map Prod.fst = [] ∨
      (joinRowsAt s1 s2 d).map Prod.fst = [d] := by
  have hlen := joinRowsAt_length_le s1 s2 d h1 h2
  rcases hJ : joinRowsAt s1 s2 d with _ | ⟨x, xs⟩
  · left; rfl
  · right
    rw [hJ] at hlen
    simp only [List.length_cons] at hlen
    have hxs : xs = [] := List.length_eq_zero.mp (by omega)
    subst hxs
    have hx : x.1 = d :=
      joinRowsAt_month s1 s2 d x (by rw [hJ]; exact List.mem_singleton_self x)
    simp [hx]

/-- With pairwise-distinct months on both sides, the merged month column
is a sublist of the sorted month axis. -/
theorem mergedRows_months_sublist (s1 s2 : List (ℕ × ℚ))
    (h1 : (s1.map Prod.fst).Nodup) (h2 : (s2.map Prod.fst).Nodup) :
    ((mergedRows s1 s2).map Prod.fst).Sublist (mergedDates s1 s2) := by
  unfold mergedRows
  generalize mergedDates s1 s2 = ds
  induction ds with
  | nil => simp
  | cons d ds ih =>
      rw [List.flatMap_cons, List.map_append]
      rcases joinRowsAt_months_eq s1 s2 d h1 h2 with hj | hj <;>
        rw [hj]
      · rw [List.nil_append]
        exact ih.cons d
      · rw [List.singleton_append]
        exact ih.cons₂ d

/-- With pairwise-distinct months on both sides, the merged rows have
pairwise-distinct months. -/
theorem mergedRows_months_nodup (s1 s2 : List (ℕ × ℚ))
    (h1 : (s1.map Prod.fst).Nodup) (h2 : (s2.map Prod.fst).Nodup) :
    ((mergedRows s1 s2).map Prod.fst).Nodup :=
  List.Nodup.sublist (mergedRows_months_sublist s1 s2 h1 h2) (mergedDates_nodup s1 s2)

/-- Claim C10 (counterexample): on a series that repeats month 5 (values
5 then 1) against a series holding (5, 3), the outer merge emits one row
per matching pair, and the walk over those two rows reports both
"scheme 58 overtakes scheme 60" and "scheme 60 overtakes scheme 58" for
month 5 — the claimed mutual exclusivity fails when a month repeats
within a series. -/
theorem C10_counterexample :
    analyze_scheme_performance seriesDupA seriesDupB =
      Except.ok ([OvertakeEvent.s1_overtakes_s2 5, OvertakeEvent.s2_overtakes_s1 5],
        [(SchemeName.scheme60, 3), (SchemeName.scheme58, 1)]) ∧
    OvertakeEvent.s1_overtakes_s2 5 ∈
      [OvertakeEvent.s1_overtakes_s2 5, OvertakeEvent.s2_overtakes_s1 5] ∧
    OvertakeEvent.s2_overtakes_s1 5 ∈
      [OvertakeEvent.s1_overtakes_s2 5, OvertakeEvent.s2_overtakes_s1 5] := by
  decide

/-- Claim C10 (amended): for every pair of input record series whose
months are pairwise distinct — which every simulator-produced record
series satisfies — and every month, the comparison analyzer never
reports both "scheme 58 overtakes scheme 60" and "scheme 60 overtakes
scheme 58" for that month. -/
theorem C10_no_bidirectional_overtake (s1 s2 : List (ℕ × ℚ))
    (hs1 : (s1.map Prod.fst).Nodup) (hs2 : (s2.map Prod.fst).Nodup)
    (evts : List OvertakeEvent) (rank : List (SchemeName × ℚ))
    (h : analyze_scheme_performance s1 s2 = Except.ok (evts, rank)) (d : ℕ) :
    ¬ (OvertakeEvent.s1_overtakes_s2 d ∈ evts ∧
       OvertakeEvent.s2_overtakes_s1 d ∈ evts) := by
  simp only [analyze_scheme_performance] at h
  split_ifs at h with hempty hrows hrank
  · simp only [Except.ok.injEq, Prod.mk.injEq] at h
    obtain ⟨he, -⟩ := h
    subst he
    simp
  · simp only [Except.ok.injEq, Prod.mk.injEq] at h
    obtain ⟨he, -⟩ := h
    subst he
    exact overtakeWalk_not_both d (mergedRows s1 s2) 0 0
      (mergedRows_months_nodup s1 s2 hs1 hs2)
  · simp only [Except.ok.injEq, Prod.mk.injEq] at h
    obtain ⟨he, -⟩ := h
    subst he
    exact overtakeWalk_not_both d (mergedRows s1 s2) 0 0
      (mergedRows_months_nodup s1 s2 hs1 hs2)

/-- Witness for C10 on the comparison-scenario series at month 2. -/
theorem C10_no_bidirectional_overtake_witness :
    ¬ (OvertakeEvent.s1_overtakes_s2 2 ∈
         [OvertakeEvent.s2_overtakes_s1 1, OvertakeEvent.s1_overtakes_s2 2] ∧
       OvertakeEvent.s2_overtakes_s1 2 ∈
         [OvertakeEvent.s2_overtakes_s1 1, OvertakeEvent.s1_overtakes_s2 2]) :=
  C10_no_bidirectional_overtake seriesA seriesB (by decide) (by decide)
    [OvertakeEvent.s2_overtakes_s1 1, OvertakeEvent.s1_overtakes_s2 2]
    [(SchemeName.scheme58, 150), (SchemeName.scheme60, 100)]
    (by decide) 2

end PensionSpec
